import Mathlib

/-!
Verification development for the Eternal1OS animation engine
(`src/scripts.js`).  The JavaScript source is shallowly embedded:

* numbers are modelled as `ℚ` (JavaScript numbers; all constants in the
  relevant code paths are exactly representable),
* the mutable objects (`FPSController`, `SpatialGrid`, particles,
  columns, the canvases and `MemoryManager`) become Lean structures and
  pure state-transition functions,
* calls to `Math.random()` / `Date.now()` / `performance.now()` become
  explicit oracle arguments supplying the values those calls produced,
* the flat cell array of `SpatialGrid` (`grid[row * cols + col]`)
  becomes a total function `ℤ → List α` that is only ever read or
  written at the indices the source computes.

Definitions come first, theorems afterwards.
-/

/-! ## utils (scripts.js lines 89-147) -/

/-- `utils.lerp` (line 90). -/
def lerp (start stop factor : ℚ) : ℚ := start + (stop - start) * factor

/-- `utils.distanceSquared` (lines 100-104). -/
def distanceSquared (x1 y1 x2 y2 : ℚ) : ℚ :=
  (x2 - x1) * (x2 - x1) + (y2 - y1) * (y2 - y1)

/-- The integers `lo, lo+1, …, hi` — the index set of a JavaScript
`for (let i = lo; i <= hi; i++)` loop. -/
def intRange (lo hi : ℤ) : List ℤ :=
  (List.range (hi + 1 - lo).toNat).map (fun i => lo + Int.ofNat i)

/-! ## SpatialGrid (scripts.js lines 235-276) -/

/-- `class SpatialGrid` (line 235).  `cols = Math.ceil(width/cellSize)`,
`rows = Math.ceil(height/cellSize)`; the backing array of
`cols * rows` cells is modelled as a total function from the flat index
`row * cols + col` to the cell's contents. -/
structure SpatialGrid (α : Type) where
  cols : ℤ
  rows : ℤ
  cellSize : ℚ
  grid : ℤ → List α

/-- The `SpatialGrid` constructor (lines 236-243): every cell starts
empty. -/
def mkSpatialGrid (α : Type) (width height cellSize : ℚ) : SpatialGrid α :=
  { cols := ⌈width / cellSize⌉
    rows := ⌈height / cellSize⌉
    cellSize := cellSize
    grid := fun _ => [] }

/-- The bounds test of `SpatialGrid.insert` (line 253):
`col >= 0 && col < this.cols && row >= 0 && row < this.rows` with
`col = Math.floor(x / cellSize)`, `row = Math.floor(y / cellSize)`. -/
def SpatialGrid.inBounds {α : Type} (g : SpatialGrid α) (x y : ℚ) : Prop :=
  0 ≤ ⌊x / g.cellSize⌋ ∧ ⌊x / g.cellSize⌋ < g.cols ∧
    0 ≤ ⌊y / g.cellSize⌋ ∧ ⌊y / g.cellSize⌋ < g.rows

instance {α : Type} (g : SpatialGrid α) (x y : ℚ) :
    Decidable (g.inBounds x y) := by
  unfold SpatialGrid.inBounds; exact inferInstance

/-- `SpatialGrid.insert` (lines 249-257): pushes `particle` onto the cell
covering `(x, y)`; does nothing when the cell coordinates are out of
range. -/
def SpatialGrid.insert {α : Type} (g : SpatialGrid α) (particle : α)
    (x y : ℚ) : SpatialGrid α :=
  let index : ℤ := ⌊y / g.cellSize⌋ * g.cols + ⌊x / g.cellSize⌋
  if g.inBounds x y then
    { g with grid := Function.update g.grid index (g.grid index ++ [particle]) }
  else g

/-- `SpatialGrid.getNearby` (lines 259-275): concatenates, in row-major
loop order, every in-range cell of the
`(2 * cellRadius + 1)²` block centred on `(x, y)`'s cell, where
`cellRadius = Math.ceil(radius / cellSize)`. -/
def SpatialGrid.getNearby {α : Type} (g : SpatialGrid α) (x y radius : ℚ) :
    List α :=
  (intRange (⌊y / g.cellSize⌋ - ⌈radius / g.cellSize⌉)
      (⌊y / g.cellSize⌋ + ⌈radius / g.cellSize⌉)).flatMap fun r =>
    (intRange (⌊x / g.cellSize⌋ - ⌈radius / g.cellSize⌉)
        (⌊x / g.cellSize⌋ + ⌈radius / g.cellSize⌉)).flatMap fun c =>
      if 0 ≤ r ∧ r < g.rows ∧ 0 ≤ c ∧ c < g.cols then
        g.grid (r * g.cols + c)
      else []

/-- `SpatialGrid.clear` (lines 245-247): empties every cell. -/
def SpatialGrid.clear {α : Type} (g : SpatialGrid α) : SpatialGrid α :=
  { g with grid := fun _ => [] }

/-- Inserting a batch of entities, each at its recorded position. -/
def SpatialGrid.insertAll {α : Type} (g : SpatialGrid α)
    (es : List (α × ℚ × ℚ)) : SpatialGrid α :=
  es.foldl (fun acc e => acc.insert e.1 e.2.1 e.2.2) g

/-! ## FPSController (scripts.js lines 150-189)

There is exactly one `FPSController` object in the source; all three
animation loops (`IntroController.animate`, `HeroCanvas.animate`,
`MatrixCanvas.animate`) call `FPSController.shouldRender` on it, and
only `HeroCanvas.animate` calls `FPSController.updateQuality`.
`adaptPerformance` (lines 181-188) mutates the global `CONFIG` particle
counts, so those counts are carried in the same state record. -/

structure FPSController where
  targetFPS : ℚ
  frameInterval : ℚ
  lastFrameTime : ℚ
  frameCount : ℕ
  qualityLevel : ℚ
  heroParticleCount : ℤ
  introParticleCount : ℤ
  matrixColumns : ℤ
deriving DecidableEq

/-- Initial controller state (lines 150-156 and the `CONFIG` literals):
`frameInterval = 1000 / targetFPS`, `lastFrameTime = 0`,
`frameCount = 0`, `qualityLevel = 1.0`; the three entity counts come
from `CONFIG` (device dependent, desktop: 12 / 15 / 20). -/
def mkFPSController (targetFPS : ℚ) (heroCount introCount matrixCols : ℤ) :
    FPSController :=
  { targetFPS := targetFPS
    frameInterval := 1000 / targetFPS
    lastFrameTime := 0
    frameCount := 0
    qualityLevel := 1
    heroParticleCount := heroCount
    introParticleCount := introCount
    matrixColumns := matrixCols }

/-- `FPSController.shouldRender` (lines 158-165). -/
def FPSController.shouldRender (s : FPSController) (currentTime : ℚ) :
    Bool × FPSController :=
  if s.frameInterval ≤ currentTime - s.lastFrameTime then
    (true, { s with lastFrameTime := currentTime, frameCount := s.frameCount + 1 })
  else
    (false, s)

/-- `FPSController.adaptPerformance` (lines 181-188):
`CONFIG.<family> = Math.max(min, Math.floor(count * qualityLevel))`. -/
def FPSController.adaptPerformance (s : FPSController) : FPSController :=
  { s with
    heroParticleCount := max 5 ⌊(s.heroParticleCount : ℚ) * s.qualityLevel⌋
    introParticleCount := max 8 ⌊(s.introParticleCount : ℚ) * s.qualityLevel⌋
    matrixColumns := max 10 ⌊(s.matrixColumns : ℚ) * s.qualityLevel⌋ }

/-- `FPSController.updateQuality` (lines 167-179).  `avgFPS` is the
value returned by `PerformanceMonitor.getAverageFPS()`, an external
input here.  Note the method increments the same `frameCount` field
that `shouldRender` increments. -/
def FPSController.updateQuality (s : FPSController) (avgFPS : ℚ) :
    FPSController :=
  let s1 : FPSController := { s with frameCount := s.frameCount + 1 }
  if s1.frameCount % 60 = 0 then
    if avgFPS < s1.targetFPS * 0.8 then
      FPSController.adaptPerformance
        { s1 with qualityLevel := max 0.3 (s1.qualityLevel * 0.9) }
    else if s1.targetFPS * 0.95 < avgFPS ∧ s1.qualityLevel < 1 then
      { s1 with qualityLevel := min 1 (s1.qualityLevel * 1.1) }
    else s1
  else s1

/-- A sequence of `updateQuality` calls fed by an arbitrary history of
average-FPS readings. -/
def runUpdateQuality (s : FPSController) (avgs : List ℚ) : FPSController :=
  avgs.foldl FPSController.updateQuality s

/-- The subsequence of polling times at which `shouldRender` accepts,
when the (shared) controller is polled at the given times in order. -/
def acceptedTimes (s : FPSController) : List ℚ → List ℚ
  | [] => []
  | t :: ts =>
    if (s.shouldRender t).1 then t :: acceptedTimes (s.shouldRender t).2 ts
    else acceptedTimes (s.shouldRender t).2 ts

/-- One pass of `HeroCanvas.animate` (lines 879-920) restricted to its
effect on the shared `FPSController`: a `shouldRender` poll, and on
acceptance a `updateQuality` call. -/
def heroSceneStep (s : FPSController) (t avgFPS : ℚ) : FPSController :=
  if (s.shouldRender t).1 then ((s.shouldRender t).2).updateQuality avgFPS
  else (s.shouldRender t).2

/-! ## Particle3D (scripts.js lines 279-358) -/

/-- The values drawn from `utils.random` by `Particle3D.reset`
(lines 288-299); in the source they lie in the ranges
`x ∈ [0,w)`, `y ∈ [0,h)`, `z ∈ [-400,400)`, `vx,vy ∈ [-1,1)`,
`vz ∈ [-2,2)`, `size ∈ [1,2)`, `baseOpacity ∈ [0.3,0.7)`. -/
structure P3Rand where
  x : ℚ
  y : ℚ
  z : ℚ
  vx : ℚ
  vy : ℚ
  vz : ℚ
  size : ℚ
  baseOpacity : ℚ
deriving DecidableEq

/-- `class Particle3D` (line 279).  `maxTrailLength` is fixed at
construction (line 284); the canvas dimensions are carried along. -/
structure Particle3D where
  x : ℚ
  y : ℚ
  z : ℚ
  vx : ℚ
  vy : ℚ
  vz : ℚ
  size : ℚ
  baseOpacity : ℚ
  trail : List (ℚ × ℚ × ℚ)
  maxTrailLength : ℕ
  lastTrailTime : ℚ
  canvasW : ℚ
  canvasH : ℚ
deriving DecidableEq

/-- `Particle3D.reset` (lines 288-299): fresh random state, trail
cleared, `lastTrailTime = 0`. -/
def Particle3D.reset (p : Particle3D) (rnd : P3Rand) : Particle3D :=
  { p with
    x := rnd.x, y := rnd.y, z := rnd.z
    vx := rnd.vx, vy := rnd.vy, vz := rnd.vz
    size := rnd.size, baseOpacity := rnd.baseOpacity
    trail := [], lastTrailTime := 0 }

/-- The `Particle3D` constructor (lines 280-286):
`maxTrailLength = DEVICE_CONFIG.mobile ? 4 : 8`, empty trail, then
`reset()`. -/
def mkParticle3D (mobile : Bool) (canvasW canvasH : ℚ) (rnd : P3Rand) :
    Particle3D :=
  Particle3D.reset
    { x := 0, y := 0, z := 0, vx := 0, vy := 0, vz := 0, size := 0
      baseOpacity := 0, trail := []
      maxTrailLength := if mobile then 4 else 8
      lastTrailTime := 0, canvasW := canvasW, canvasH := canvasH } rnd

/-- The trail insertion of `Particle3D.update` (lines 308-311): shift
the oldest sample once the buffer is at (or past) capacity, then push
the new sample. -/
def Particle3D.trailStep (trail : List (ℚ × ℚ × ℚ)) (maxTrailLength : ℕ)
    (sample : ℚ × ℚ × ℚ) : List (ℚ × ℚ × ℚ) :=
  (if maxTrailLength ≤ trail.length then trail.tail else trail) ++ [sample]

/-- `Particle3D.update` (lines 301-321): integrate position, throttled
trail sample (only when more than 50 ms elapsed), boundary check with
`reset()` as the out-of-bounds policy.  `rnd` supplies the random
values a triggered `reset()` would draw. -/
def Particle3D.update (p : Particle3D) (currentTime : ℚ) (rnd : P3Rand) :
    Particle3D :=
  let p1 : Particle3D := { p with x := p.x + p.vx, y := p.y + p.vy, z := p.z + p.vz }
  let p2 : Particle3D :=
    if 50 < currentTime - p1.lastTrailTime then
      { p1 with
        trail := Particle3D.trailStep p1.trail p1.maxTrailLength (p1.x, p1.y, p1.z)
        lastTrailTime := currentTime }
    else p1
  if p2.x < -50 ∨ p2.canvasW + 50 < p2.x ∨
      p2.y < -50 ∨ p2.canvasH + 50 < p2.y ∨
      p2.z < -400 ∨ 400 < p2.z then
    p2.reset rnd
  else p2

/-- A finite sequence of `update` calls; each tick supplies the clock
value and the oracle for a possible `reset()`. -/
def Particle3D.run (p : Particle3D) (ticks : List (ℚ × P3Rand)) : Particle3D :=
  ticks.foldl (fun q tk => q.update tk.1 tk.2) p

/-! ## MatrixColumn (scripts.js lines 465-538) -/

/-- One glyph of a matrix column: the character (an index into
`CONFIG.matrix.characters`) and its age in ticks (lines 496-499). -/
structure MCChar where
  char : ℕ
  age : ℕ
deriving DecidableEq

/-- The values drawn by `MatrixColumn.reset` (lines 473-481) and by the
glyph-append step (lines 495-501).  In the source
`resetMaxLength = utils.random(5, CONFIG.matrix.maxTrailLength)` — a
real-valued draw from `[5, maxTrailLength)` — and
`charDelay = utils.random(100, 300)`. -/
structure MCRand where
  resetY : ℚ
  resetSpeed : ℚ
  resetMaxLength : ℚ
  resetOpacity : ℚ
  charIdx : ℕ
  charDelay : ℚ
deriving DecidableEq

/-- `class MatrixColumn` (line 465). -/
structure MatrixColumn where
  x : ℚ
  y : ℚ
  speed : ℚ
  characters : List MCChar
  maxLength : ℚ
  opacity : ℚ
  nextCharTime : ℚ
  canvasH : ℚ
deriving DecidableEq

/-- `MatrixColumn.reset` (lines 473-481). -/
def MatrixColumn.reset (c : MatrixColumn) (rnd : MCRand) : MatrixColumn :=
  { c with
    y := rnd.resetY
    speed := rnd.resetSpeed
    characters := []
    maxLength := rnd.resetMaxLength
    opacity := rnd.resetOpacity
    nextCharTime := 0 }

/-- The `MatrixColumn` constructor (lines 466-471). -/
def mkMatrixColumn (x canvasH : ℚ) (rnd : MCRand) : MatrixColumn :=
  MatrixColumn.reset
    { x := x, y := 0, speed := 0, characters := [], maxLength := 0
      opacity := 0, nextCharTime := 0, canvasH := canvasH } rnd

/-- `MatrixColumn.update` (lines 483-510): advance, reset past the
bottom edge, append a glyph only when the randomized delay has elapsed
and the buffer has not reached `maxLength`, then age every glyph and
drop those older than 80 ticks.  `now` is the `Date.now()` reading. -/
def MatrixColumn.update (c : MatrixColumn) (reducedMotion : Bool) (now : ℚ)
    (rnd : MCRand) : MatrixColumn :=
  if reducedMotion then c
  else
    let c1 : MatrixColumn := { c with y := c.y + c.speed }
    if c1.canvasH + 100 < c1.y then c1.reset rnd
    else
      let c2 : MatrixColumn :=
        if c1.nextCharTime < now ∧ (c1.characters.length : ℚ) < c1.maxLength then
          { c1 with
            characters := c1.characters ++ [{ char := rnd.charIdx, age := 0 }]
            nextCharTime := now + rnd.charDelay }
        else c1
      { c2 with
        characters :=
          (c2.characters.map (fun ch => { ch with age := ch.age + 1 })).filter
            (fun ch => ch.age ≤ 80) }

/-- A finite sequence of `update` calls on a column. -/
def MatrixColumn.run (c : MatrixColumn) (reducedMotion : Bool)
    (ticks : List (ℚ × MCRand)) : MatrixColumn :=
  ticks.foldl (fun d tk => d.update reducedMotion tk.1 tk.2) c

/-! ## HeroParticle connections (scripts.js lines 361-461, 879-961) -/

/-- A hero particle as the connection code observes it: an identity
(JavaScript object identity, relevant to `particle !== this` /
`p2 === p1`) and a position. -/
structure HP where
  id : ℕ
  x : ℚ
  y : ℚ
deriving DecidableEq

/-- The spatial-grid rebuild of `HeroCanvas.animate` (lines 896-902):
`clear()` then `insert(particle, particle.x, particle.y)` for every
hero particle in order. -/
def buildGrid (g : SpatialGrid HP) (ps : List HP) : SpatialGrid HP :=
  ps.foldl (fun acc p => acc.insert p p.x p.y) g.clear

/-- `HeroParticle.findConnections` (lines 443-461).  The `particles`
argument is the global `heroParticles` array the fallback scans. -/
def HeroParticle.findConnections (p : HP) (particles : List HP)
    (spatialGrid : Option (SpatialGrid HP))
    (spatialOptimization mobile reducedMotion : Bool)
    (connectionDistance : ℚ) : List HP :=
  if mobile || reducedMotion then []
  else
    match spatialOptimization, spatialGrid with
    | true, some g => g.getNearby p.x p.y connectionDistance
    | _, _ =>
      particles.filter fun particle =>
        particle ≠ p ∧
          distanceSquared p.x p.y particle.x particle.y <
            connectionDistance * connectionDistance

/-- The inner loop of `HeroCanvas.drawConnections` (lines 938-956):
`for (j = 0; j < nearby.length && connectionCount < maxConnections; j++)`
skipping `p2 === p1` and drawing a line for each candidate within the
squared connection distance. -/
def connLoop (p1 : HP) (maxConnections : ℕ) (connectionDistSq : ℚ) :
    List HP → ℕ → List (HP × HP)
  | [], _ => []
  | p2 :: rest, connectionCount =>
    if connectionCount < maxConnections then
      if p2 = p1 then connLoop p1 maxConnections connectionDistSq rest connectionCount
      else if distanceSquared p1.x p1.y p2.x p2.y < connectionDistSq then
        (p1, p2) :: connLoop p1 maxConnections connectionDistSq rest (connectionCount + 1)
      else connLoop p1 maxConnections connectionDistSq rest connectionCount
    else []

/-- Modelled from the spec (§4.3): the result set `findConnections`
is specified to produce on every path — "candidates within search
radius", with the index's over-approximate result exact-filtered before
use — namely the other particles strictly within the squared connection
distance. -/
def findConnectionsSpec (p : HP) (particles : List HP)
    (connectionDistance : ℚ) : List HP :=
  particles.filter fun particle =>
    particle ≠ p ∧
      distanceSquared p.x p.y particle.x particle.y <
        connectionDistance * connectionDistance

/-- The outer loop of `HeroCanvas.drawConnections` (lines 929-957):
candidates come from `spatialGrid.getNearby` when a grid is present,
otherwise from `heroParticles.slice(i + 1)`. -/
def drawConnectionsGo (spatialGrid : Option (SpatialGrid HP))
    (maxConnections : ℕ) (connectionDistance : ℚ) :
    List HP → List (HP × HP)
  | [] => []
  | p1 :: rest =>
    connLoop p1 maxConnections (connectionDistance * connectionDistance)
        (match spatialGrid with
          | some g => g.getNearby p1.x p1.y connectionDistance
          | none => rest) 0
      ++ drawConnectionsGo spatialGrid maxConnections connectionDistance rest

/-- `HeroCanvas.drawConnections` (lines 922-961), returning the list of
line segments drawn, in drawing order. -/
def drawConnections (particles : List HP)
    (spatialGrid : Option (SpatialGrid HP)) (maxConnections : ℕ)
    (connectionDistance : ℚ) (mobile reducedMotion : Bool) :
    List (HP × HP) :=
  if mobile || reducedMotion then []
  else drawConnectionsGo spatialGrid maxConnections connectionDistance particles

/-! ## Scene frame error handling (scripts.js lines 879-920, 1027-1055)

`HeroCanvas.animate` and `MatrixCanvas.animate` each wrap the whole
per-frame entity batch (`entities.forEach(e => { e.update(); e.draw(); })`)
in a single try/catch; the catch logs and sets that canvas's
`isActive = false`.  An entity is abstracted to an update counter plus
a flag saying whether its `update()`/`draw()` throws this frame;
JavaScript mutates entities in place, so entities processed before a
throw keep their new state while the throw skips all later entities. -/

structure SimEntity where
  id : ℕ
  updateCount : ℕ
  throws : Bool
deriving DecidableEq

/-- The `forEach` update/draw batch under a surrounding try/catch:
returns the entity states after the frame and whether an exception
escaped the batch. -/
def updateEntities : List SimEntity → List SimEntity × Bool
  | [] => ([], false)
  | e :: rest =>
    if e.throws then (e :: rest, true)
    else
      let r := updateEntities rest
      ({ e with updateCount := e.updateCount + 1 } :: r.1, r.2)

/-- One canvas controller as seen by `animate`'s error handling. -/
structure SceneState where
  isActive : Bool
  entities : List SimEntity
deriving DecidableEq

/-- One `animate` pass (lines 879-920 / 1027-1055): nothing happens when
inactive; otherwise the batch runs, and the catch handler sets
`isActive = false` when an exception escaped it. -/
def sceneAnimateFrame (s : SceneState) : SceneState :=
  if s.isActive then
    let r := updateEntities s.entities
    if r.2 then { isActive := false, entities := r.1 }
    else { s with entities := r.1 }
  else s

/-- The hero and matrix canvases with their separate `animate` loops and
separate try/catch boundaries. -/
structure TwoScenes where
  hero : SceneState
  matrix : SceneState
deriving DecidableEq

/-- One scheduler round: each scene runs its own `animate` pass inside
its own try/catch. -/
def twoScenesFrame (sys : TwoScenes) : TwoScenes :=
  { hero := sceneAnimateFrame sys.hero
    matrix := sceneAnimateFrame sys.matrix }

/-! ## MemoryManager pause / resume (scripts.js lines 1424-1456)

`requestAnimationFrame` scheduling is modelled by `pending`, the number
of outstanding scheduled animation callbacks (live loop chains) of a
canvas, together with the stored cancellable `handle`
(`heroAnimationFrame` / `matrixAnimationFrame` / `animationFrame`).
`animate()` checks `isActive` and, when active, schedules one new
callback and stores its handle. -/

structure LoopState where
  isActive : Bool
  handle : Option ℕ
  pending : ℕ
  hasCanvas : Bool
deriving DecidableEq

/-- A direct invocation of a canvas's `animate()`: returns immediately
when `isActive` is false; otherwise schedules the next frame (one more
pending callback) and stores its handle (ids abstracted). -/
def animateCall (s : LoopState) : LoopState :=
  if s.isActive then { s with pending := s.pending + 1, handle := some s.pending }
  else s

/-- The per-canvas effect of `MemoryManager.pauseAnimations`
(lines 1424-1441): clear `isActive`, and cancel + null the stored
frame handle when one is present. -/
def pauseLoop (s : LoopState) : LoopState :=
  match s.handle with
  | some _ => { s with isActive := false, handle := none, pending := s.pending - 1 }
  | none => { s with isActive := false }

/-- The per-canvas effect of `MemoryManager.resumeAnimations`
(lines 1443-1456): set `isActive`, then `if (canvas) animate()`. -/
def resumeLoop (s : LoopState) : LoopState :=
  if s.hasCanvas then animateCall { s with isActive := true }
  else { s with isActive := true }

/-- The three canvases plus the `introCompleted` flag. -/
structure AnimSystem where
  introCompleted : Bool
  hero : LoopState
  matrix : LoopState
  intro : LoopState
deriving DecidableEq

/-- `MemoryManager.pauseAnimations` (lines 1424-1441). -/
def pauseAnimations (a : AnimSystem) : AnimSystem :=
  { a with hero := pauseLoop a.hero, matrix := pauseLoop a.matrix
           intro := pauseLoop a.intro }

/-- `MemoryManager.resumeAnimations` (lines 1443-1456), after its settle
delay: resume hero and matrix when the intro has completed, otherwise
the intro. -/
def resumeAnimations (a : AnimSystem) : AnimSystem :=
  if a.introCompleted then
    { a with hero := resumeLoop a.hero, matrix := resumeLoop a.matrix }
  else
    { a with intro := resumeLoop a.intro }

/-! ## MemoryManager cleanup (scripts.js lines 1362-1412) -/

/-- The global state `MemoryManager.cleanup` / `forceCleanup` operate
on: the `particles3D` array, the `MatrixCanvas.columns` array and the
throttle timestamp. -/
structure MMState where
  particles3D : List Particle3D
  matrixColumns : List MatrixColumn
  lastCleanup : ℚ
deriving DecidableEq

/-- `MemoryManager.cleanup` (lines 1362-1403): throttled to once per
5000 ms; trims each trail to its last `maxTrailLength` samples and each
glyph buffer to its last `maxLength` glyphs when they exceed the cap
(`slice(-maxLength)` truncates the fractional cap toward zero; caps are
positive in the source, so this is the floor). -/
def mmCleanup (m : MMState) (now : ℚ) : MMState :=
  if now - m.lastCleanup < 5000 then m
  else
    { particles3D := m.particles3D.map fun p =>
        if p.maxTrailLength < p.trail.length then
          { p with trail := p.trail.drop (p.trail.length - p.maxTrailLength) }
        else p
      matrixColumns := m.matrixColumns.map fun c =>
        if c.maxLength < (c.characters.length : ℚ) then
          { c with characters :=
              c.characters.drop (c.characters.length - (⌊c.maxLength⌋).toNat) }
        else c
      lastCleanup := now }

/-- `MemoryManager.forceCleanup` (lines 1405-1412): run `cleanup()`,
then unconditionally empty every particle trail
(`particle.trail.length = 0`) and every column's glyph buffer
(`column.characters.length = 0`). -/
def mmForceCleanup (m : MMState) (now : ℚ) : MMState :=
  let m1 := mmCleanup m now
  { m1 with
    particles3D := m1.particles3D.map fun p => { p with trail := [] }
    matrixColumns := m1.matrixColumns.map fun c => { c with characters := [] } }

/-! ## Concrete scenarios referenced by the analysis -/

/-- Oracle for the matrix-column run: `reset()` draws `y = -100`,
`speed = 1`, `maxLength = utils.random(5, 15) = 7.5` (a legal value of
that real-valued draw), `opacity = 0.5`; each glyph append draws
character index 0 and delay 100. -/
def c2rand : MCRand :=
  { resetY := -100, resetSpeed := 1, resetMaxLength := 15/2
    resetOpacity := 1/2, charIdx := 0, charDelay := 100 }

/-- Eight `update` ticks, 1000 ms apart. -/
def c2ticks : List (ℚ × MCRand) :=
  (List.range 8).map fun i => (1000 * ((i : ℚ) + 1), c2rand)

/-- A freshly reset column on a tall canvas after those eight ticks. -/
def c2col : MatrixColumn :=
  MatrixColumn.run (mkMatrixColumn 0 10000 c2rand) false c2ticks

/-- Two hero particles 50 units apart (the spec's scenario). -/
def c4p1 : HP := { id := 0, x := 100, y := 100 }

def c4p2 : HP := { id := 1, x := 150, y := 100 }

/-- The spatial grid `HeroCanvas` builds for them: 800×600 surface,
cell size 100 (line 827). -/
def c4grid : SpatialGrid HP := buildGrid (mkSpatialGrid HP 800 600 100) [c4p1, c4p2]

/-- Two hero particles 150 units apart — farther than the
`connectionDistance = 120` but within the same 5×5 cell block. -/
def c7p : HP := { id := 0, x := 0, y := 0 }

def c7q : HP := { id := 1, x := 150, y := 0 }

def c7grid : SpatialGrid HP := buildGrid (mkSpatialGrid HP 800 600 100) [c7p, c7q]

/-- Sixty polling times, 100 ms apart, so every poll is accepted at
`targetFPS = 60` (interval 16.67 ms). -/
def c6Times : List ℚ := (List.range 60).map fun i => 100 * ((i : ℚ) + 1)

/-- Sixty accepted hero frames against a constant reported average FPS
of 20, starting from the initial desktop configuration
(`targetFPS = 60`, counts 12/15/20). -/
def c6Run : FPSController :=
  c6Times.foldl (fun s t => heroSceneStep s t 20) (mkFPSController 60 12 15 20)

set_option maxRecDepth 10000

/-! ## Helper lemmas -/

/-- Folding preserves an invariant that every step preserves. -/
theorem foldl_preserves {α σ : Type _} (P : σ → Prop) (f : σ → α → σ)
    (l : List α) (s : σ) (h0 : P s)
    (h : ∀ s a, a ∈ l → P s → P (f s a)) : P (l.foldl f s) := by
  induction l generalizing s with
  | nil => exact h0
  | cons a l ih =>
    exact ih _ (h _ _ (List.mem_cons_self _ _) h0)
      fun s b hb => h s b (List.mem_cons_of_mem _ hb)

theorem mem_ite_nil {α : Type} (P : Prop) [Decidable P] (l : List α) (e : α) :
    (e ∈ if P then l else []) ↔ P ∧ e ∈ l := by
  split <;> simp_all

theorem mem_intRange {lo hi a : ℤ} : a ∈ intRange lo hi ↔ lo ≤ a ∧ a ≤ hi := by
  unfold intRange
  rw [List.mem_map]
  constructor
  · rintro ⟨i, hmem, rfl⟩
    rw [List.mem_range] at hmem
    rw [Int.ofNat_eq_coe]
    omega
  · rintro ⟨h1, h2⟩
    refine ⟨(a - lo).toNat, List.mem_range.mpr (by omega), ?_⟩
    rw [Int.ofNat_eq_coe]
    omega

@[simp] theorem insert_cols {α : Type} (g : SpatialGrid α) (p : α) (x y : ℚ) :
    (g.insert p x y).cols = g.cols := by
  unfold SpatialGrid.insert; split <;> rfl

@[simp] theorem insert_rows {α : Type} (g : SpatialGrid α) (p : α) (x y : ℚ) :
    (g.insert p x y).rows = g.rows := by
  unfold SpatialGrid.insert; split <;> rfl

@[simp] theorem insert_cellSize {α : Type} (g : SpatialGrid α) (p : α) (x y : ℚ) :
    (g.insert p x y).cellSize = g.cellSize := by
  unfold SpatialGrid.insert; split <;> rfl

theorem mem_grid_insert {α : Type} (g : SpatialGrid α) (p e : α) (x y : ℚ)
    (i : ℤ) (h : e ∈ g.grid i) : e ∈ (g.insert p x y).grid i := by
  unfold SpatialGrid.insert
  split
  · dsimp only
    rw [Function.update_apply]
    split
    · next heq =>
      rw [heq] at h
      exact List.mem_append_left _ h
    · exact h
  · exact h

theorem self_mem_insert {α : Type} (g : SpatialGrid α) (p : α) (x y : ℚ)
    (h : g.inBounds x y) :
    p ∈ (g.insert p x y).grid (⌊y / g.cellSize⌋ * g.cols + ⌊x / g.cellSize⌋) := by
  unfold SpatialGrid.insert
  rw [if_pos h]
  dsimp only
  rw [Function.update_same]
  exact List.mem_append_right _ (List.mem_singleton_self _)

theorem inBounds_insert {α : Type} (g : SpatialGrid α) (p : α)
    (x0 y0 x y : ℚ) : (g.insert p x0 y0).inBounds x y ↔ g.inBounds x y := by
  unfold SpatialGrid.inBounds
  rw [insert_cols, insert_rows, insert_cellSize]

@[simp] theorem insertAll_cols {α : Type} (g : SpatialGrid α)
    (es : List (α × ℚ × ℚ)) : (g.insertAll es).cols = g.cols := by
  induction es generalizing g with
  | nil => rfl
  | cons hd tl ih =>
    unfold SpatialGrid.insertAll at ih ⊢
    rw [List.foldl_cons, ih, insert_cols]

@[simp] theorem insertAll_rows {α : Type} (g : SpatialGrid α)
    (es : List (α × ℚ × ℚ)) : (g.insertAll es).rows = g.rows := by
  induction es generalizing g with
  | nil => rfl
  | cons hd tl ih =>
    unfold SpatialGrid.insertAll at ih ⊢
    rw [List.foldl_cons, ih, insert_rows]

@[simp] theorem insertAll_cellSize {α : Type} (g : SpatialGrid α)
    (es : List (α × ℚ × ℚ)) : (g.insertAll es).cellSize = g.cellSize := by
  induction es generalizing g with
  | nil => rfl
  | cons hd tl ih =>
    unfold SpatialGrid.insertAll at ih ⊢
    rw [List.foldl_cons, ih, insert_cellSize]

theorem mem_grid_insertAll {α : Type} (g : SpatialGrid α)
    (es : List (α × ℚ × ℚ)) (e : α) (i : ℤ) (h : e ∈ g.grid i) :
    e ∈ (g.insertAll es).grid i := by
  induction es generalizing g with
  | nil => exact h
  | cons hd tl ih =>
    unfold SpatialGrid.insertAll at ih ⊢
    rw [List.foldl_cons]
    exact ih _ (mem_grid_insert _ _ _ _ _ _ h)

theorem inserted_mem_cell {α : Type} (es : List (α × ℚ × ℚ))
    (g : SpatialGrid α) (e : α) (x y : ℚ) (hmem : (e, x, y) ∈ es)
    (hin : g.inBounds x y) :
    e ∈ (g.insertAll es).grid (⌊y / g.cellSize⌋ * g.cols + ⌊x / g.cellSize⌋) := by
  induction es generalizing g with
  | nil => cases hmem
  | cons hd tl ih =>
    unfold SpatialGrid.insertAll at ih ⊢
    rw [List.foldl_cons]
    rcases List.mem_cons.mp hmem with heq | htl
    · rw [← heq]
      exact mem_grid_insertAll (g.insert e x y) tl e _
        (self_mem_insert g e x y hin)
    · have hin2 : (g.insert hd.1 hd.2.1 hd.2.2).inBounds x y :=
        (inBounds_insert _ _ _ _ _ _).mpr hin
      have := ih (g.insert hd.1 hd.2.1 hd.2.2) htl hin2
      rw [insert_cellSize, insert_cols] at this
      exact this

theorem mem_getNearby_iff {α : Type} (g : SpatialGrid α) (e : α)
    (x y radius : ℚ) :
    e ∈ g.getNearby x y radius ↔
      ∃ r c : ℤ,
        (⌊y / g.cellSize⌋ - ⌈radius / g.cellSize⌉ ≤ r ∧
          r ≤ ⌊y / g.cellSize⌋ + ⌈radius / g.cellSize⌉) ∧
        (⌊x / g.cellSize⌋ - ⌈radius / g.cellSize⌉ ≤ c ∧
          c ≤ ⌊x / g.cellSize⌋ + ⌈radius / g.cellSize⌉) ∧
        (0 ≤ r ∧ r < g.rows ∧ 0 ≤ c ∧ c < g.cols) ∧
        e ∈ g.grid (r * g.cols + c) := by
  unfold SpatialGrid.getNearby
  simp only [List.mem_flatMap, mem_intRange, mem_ite_nil]
  constructor
  · rintro ⟨r, hr, c, hc, hcond, he⟩
    exact ⟨r, c, hr, hc, hcond, he⟩
  · rintro ⟨r, c, hr, hc, hcond, he⟩
    exact ⟨r, hr, c, hc, hcond, he⟩

theorem abs_le_of_sq_sum {dx dy r : ℚ} (hr : 0 ≤ r)
    (h : dx * dx + dy * dy ≤ r * r) : |dx| ≤ r ∧ |dy| ≤ r := by
  constructor <;> rw [abs_le] <;> constructor <;>
    nlinarith [mul_self_nonneg dx, mul_self_nonneg dy, mul_self_nonneg (dx - r),
      mul_self_nonneg (dx + r), mul_self_nonneg (dy - r), mul_self_nonneg (dy + r)]

theorem floor_div_block {cs q v r : ℚ} (hcs : 0 < cs) (habs : |v - q| ≤ r) :
    ⌊q / cs⌋ - ⌈r / cs⌉ ≤ ⌊v / cs⌋ ∧ ⌊v / cs⌋ ≤ ⌊q / cs⌋ + ⌈r / cs⌉ := by
  obtain ⟨h1, h2⟩ := abs_le.mp habs
  constructor
  · apply Int.le_floor.mpr
    push_cast
    have hq : (⌊q / cs⌋ : ℚ) ≤ q / cs := Int.floor_le _
    have hrc : r / cs ≤ (⌈r / cs⌉ : ℚ) := Int.le_ceil _
    have hdiv : (q - r) / cs ≤ v / cs :=
      div_le_div_of_nonneg_right (by linarith) hcs.le
    rw [sub_div] at hdiv
    linarith
  · have h3 : v / cs ≤ q / cs + r / cs := by
      have hdiv : v / cs ≤ (q + r) / cs :=
        div_le_div_of_nonneg_right (by linarith) hcs.le
      rw [add_div] at hdiv
      exact hdiv
    have h4 : q / cs < (⌊q / cs⌋ : ℚ) + 1 := Int.lt_floor_add_one _
    have h5 : r / cs ≤ (⌈r / cs⌉ : ℚ) := Int.le_ceil _
    have h6 : ⌊v / cs⌋ < ⌊q / cs⌋ + ⌈r / cs⌉ + 1 := by
      apply Int.floor_lt.mpr
      push_cast
      linarith
    omega

theorem getNearby_superset {α : Type} (g : SpatialGrid α) (qx qy r : ℚ)
    (hcs : 0 < g.cellSize) (hr : 0 ≤ r) (es : List (α × ℚ × ℚ)) (e : α)
    (x y : ℚ) (hmem : (e, x, y) ∈ es) (hin : g.inBounds x y)
    (hdist : distanceSquared x y qx qy ≤ r * r) :
    e ∈ (g.insertAll es).getNearby qx qy r := by
  have hcell := inserted_mem_cell es g e x y hmem hin
  obtain ⟨habsx, habsy⟩ := abs_le_of_sq_sum hr (by
    unfold distanceSquared at hdist
    exact hdist)
  rw [abs_sub_comm] at habsx habsy
  obtain ⟨hx1, hx2⟩ := floor_div_block hcs habsx
  obtain ⟨hy1, hy2⟩ := floor_div_block hcs habsy
  apply (mem_getNearby_iff _ _ _ _ _).mpr
  obtain ⟨hb1, hb2, hb3, hb4⟩ := hin
  refine ⟨⌊y / g.cellSize⌋, ⌊x / g.cellSize⌋, ?_, ?_, ?_, ?_⟩
  · rw [insertAll_cellSize]
    exact ⟨hy1, hy2⟩
  · rw [insertAll_cellSize]
    exact ⟨hx1, hx2⟩
  · rw [insertAll_rows, insertAll_cols]
    exact ⟨hb3, hb4, hb1, hb2⟩
  · rw [insertAll_cols]
    exact hcell

/-! ## Claim C1 -/

/-- Claim C1: for every batch of entities inserted into a freshly built
`SpatialGrid` via `insert(entity, x, y)`, the list returned by
`getNearby(qx, qy, r)` contains every stored entity whose exact
Euclidean distance from the query point is at most `r` (squared
distance at most `r * r`; a superset of the true within-radius set);
membership in the result is exactly membership in one of the in-range
cells of the `(2*⌈r/cellSize⌉+1)²` cell block centred on the query
point's cell; and `insert` leaves the grid unchanged when `(x, y)` lies
outside the indexed bounds. -/
theorem C1_spatialGrid_query (width height cs qx qy r : ℚ)
    (hcs : 0 < cs) (hr : 0 ≤ r) (es : List (ℕ × ℚ × ℚ)) :
    (∀ (e : ℕ) (x y : ℚ), (e, x, y) ∈ es →
        (mkSpatialGrid ℕ width height cs).inBounds x y →
        distanceSquared x y qx qy ≤ r * r →
        e ∈ ((mkSpatialGrid ℕ width height cs).insertAll es).getNearby qx qy r)
    ∧ (∀ (g : SpatialGrid ℕ) (e : ℕ),
        e ∈ g.getNearby qx qy r ↔
          ∃ rI cI : ℤ,
            (⌊qy / g.cellSize⌋ - ⌈r / g.cellSize⌉ ≤ rI ∧
              rI ≤ ⌊qy / g.cellSize⌋ + ⌈r / g.cellSize⌉) ∧
            (⌊qx / g.cellSize⌋ - ⌈r / g.cellSize⌉ ≤ cI ∧
              cI ≤ ⌊qx / g.cellSize⌋ + ⌈r / g.cellSize⌉) ∧
            (0 ≤ rI ∧ rI < g.rows ∧ 0 ≤ cI ∧ cI < g.cols) ∧
            e ∈ g.grid (rI * g.cols + cI))
    ∧ (∀ (g : SpatialGrid ℕ) (p : ℕ) (x y : ℚ),
        ¬ g.inBounds x y → g.insert p x y = g) := by
  refine ⟨?_, ?_, ?_⟩
  · intro e x y hmem hin hdist
    exact getNearby_superset (mkSpatialGrid ℕ width height cs) qx qy r hcs hr
      es e x y hmem hin hdist
  · intro g e
    exact mem_getNearby_iff g e qx qy r
  · intro g p x y hni
    unfold SpatialGrid.insert
    simp [hni]

/-- Concrete instantiation of `C1_spatialGrid_query`: an 800×600 grid
with 100-unit cells, one entity stored at (50, 50), queried at (60, 60)
with radius 20 (true distance √200 ≈ 14.1). -/
theorem C1_spatialGrid_query_witness :
    (0 : ℕ) ∈ ((mkSpatialGrid ℕ 800 600 100).insertAll
      [(0, 50, 50)]).getNearby 60 60 20 :=
  (C1_spatialGrid_query 800 600 100 60 60 20 (by norm_num) (by norm_num)
      [(0, 50, 50)]).1 0 50 50 (List.mem_singleton_self _)
    (by with_unfolding_all decide) (by norm_num [distanceSquared])

/-! ## Claim C2 -/

theorem trailStep_length_le (trail : List (ℚ × ℚ × ℚ)) (m : ℕ)
    (sample : ℚ × ℚ × ℚ) (hm : 1 ≤ m) (h : trail.length ≤ m) :
    (Particle3D.trailStep trail m sample).length ≤ m := by
  unfold Particle3D.trailStep
  rw [List.length_append, List.length_singleton]
  split
  · next hge =>
    rw [List.length_tail]
    omega
  · next hlt =>
    push_neg at hlt
    omega

theorem update_preserves_trail_inv (p : Particle3D) (t : ℚ) (rnd : P3Rand)
    (h : p.trail.length ≤ p.maxTrailLength ∧ 1 ≤ p.maxTrailLength) :
    (p.update t rnd).trail.length ≤ (p.update t rnd).maxTrailLength ∧
      1 ≤ (p.update t rnd).maxTrailLength := by
  obtain ⟨h1, h2⟩ := h
  unfold Particle3D.update Particle3D.reset
  dsimp only
  split_ifs with h50 hbound hbound
  · exact ⟨Nat.zero_le _, h2⟩
  · exact ⟨trailStep_length_le _ _ _ h2 h1, h2⟩
  · exact ⟨Nat.zero_le _, h2⟩
  · exact ⟨h1, h2⟩

theorem run_preserves_trail_inv (p : Particle3D) (ticks : List (ℚ × P3Rand))
    (h : p.trail.length ≤ p.maxTrailLength ∧ 1 ≤ p.maxTrailLength) :
    (p.run ticks).trail.length ≤ (p.run ticks).maxTrailLength := by
  unfold Particle3D.run
  exact (foldl_preserves
    (fun q => q.trail.length ≤ q.maxTrailLength ∧ 1 ≤ q.maxTrailLength)
    (fun q tk => q.update tk.1 tk.2) ticks p h
    fun s a _ hs => update_preserves_trail_inv s a.1 a.2 hs).1

theorem aged_filter_le (l : List MCChar) :
    ((l.map fun ch => { ch with age := ch.age + 1 }).filter
      fun ch => ch.age ≤ 80).length ≤ l.length := by
  refine le_trans (List.length_filter_le _ _) ?_
  exact le_of_eq (List.length_map _ _)

theorem update_preserves_chars_inv (c : MatrixColumn) (rm : Bool) (now : ℚ)
    (rnd : MCRand) (hrnd : 0 ≤ rnd.resetMaxLength)
    (h : (c.characters.length : ℤ) ≤ ⌈c.maxLength⌉) :
    ((c.update rm now rnd).characters.length : ℤ) ≤
      ⌈(c.update rm now rnd).maxLength⌉ := by
  unfold MatrixColumn.update MatrixColumn.reset
  dsimp only
  split_ifs with hrm hb happ
  · exact h
  · simpa using Int.ceil_nonneg hrnd
  · obtain ⟨hnext, hlen⟩ := happ
    have hceil : (c.characters.length : ℤ) < ⌈c.maxLength⌉ := by
      have hc : (c.characters.length : ℚ) < (⌈c.maxLength⌉ : ℚ) :=
        lt_of_lt_of_le hlen (Int.le_ceil _)
      exact_mod_cast hc
    have h1 := aged_filter_le (c.characters ++ [{ char := rnd.charIdx, age := 0 }])
    rw [List.length_append, List.length_singleton] at h1
    dsimp only
    omega
  · have h1 := aged_filter_le c.characters
    dsimp only
    omega

theorem run_preserves_chars_inv (c : MatrixColumn) (rm : Bool)
    (ticks : List (ℚ × MCRand))
    (h : (c.characters.length : ℤ) ≤ ⌈c.maxLength⌉)
    (hticks : ∀ tk ∈ ticks, (0 : ℚ) ≤ tk.2.resetMaxLength) :
    ((c.run rm ticks).characters.length : ℤ) ≤ ⌈(c.run rm ticks).maxLength⌉ := by
  unfold MatrixColumn.run
  exact foldl_preserves
    (fun d => (d.characters.length : ℤ) ≤ ⌈d.maxLength⌉)
    (fun d tk => d.update rm tk.1 tk.2) ticks c h
    fun s a ha hs => update_preserves_chars_inv s rm a.1 a.2 (hticks a ha) hs

/-- Claim C2 fails as stated: `MatrixColumn.reset` draws
`maxLength = utils.random(5, 15)`, a real-valued draw, and the append
guard `characters.length < maxLength` admits one glyph past a
fractional cap.  With `maxLength = 7.5` (a legal draw) and eight
1000 ms ticks from a fresh reset, the buffer reaches length 8 > 7.5. -/
theorem C2_counterexample :
    c2col.characters.length = 8 ∧ c2col.maxLength = 15 / 2 ∧
      ¬ ((c2col.characters.length : ℚ) ≤ c2col.maxLength) := by
  with_unfolding_all decide

/-- Claim C2, amended: (1) a `Particle3D`'s trail never exceeds its
construction-time `maxTrailLength` (4 on mobile, 8 otherwise) over any
finite sequence of `update` calls from a fresh reset, for any clock
values and reset oracles; (2) trail insertion at capacity evicts the
oldest sample (ring buffer): at `trail.length = maxTrailLength ≥ 1` the
inserted buffer is `trail.tail ++ [sample]`, of unchanged length;
(3) a `MatrixColumn`'s glyph buffer never exceeds `⌈maxLength⌉` — the
fractional cap rounded up, since glyphs are appended only while
`length < maxLength` (and never evicted by insertion; aging removes
them) — over any run from a fresh reset whose `maxLength` draws lie in
the source's `random(5, 15)` range. -/
theorem C2_buffer_bounds :
    (∀ (mobile : Bool) (cw ch : ℚ) (rnd0 : P3Rand)
        (ticks : List (ℚ × P3Rand)),
        ((mkParticle3D mobile cw ch rnd0).run ticks).trail.length ≤
          ((mkParticle3D mobile cw ch rnd0).run ticks).maxTrailLength)
    ∧ (∀ (trail : List (ℚ × ℚ × ℚ)) (m : ℕ) (sample : ℚ × ℚ × ℚ),
        trail.length = m → 1 ≤ m →
        Particle3D.trailStep trail m sample = trail.tail ++ [sample] ∧
          (Particle3D.trailStep trail m sample).length = m)
    ∧ (∀ (x ch : ℚ) (rnd0 : MCRand) (rm : Bool)
        (ticks : List (ℚ × MCRand)),
        5 ≤ rnd0.resetMaxLength →
        (∀ tk ∈ ticks, (5 : ℚ) ≤ tk.2.resetMaxLength) →
        (((mkMatrixColumn x ch rnd0).run rm ticks).characters.length : ℤ) ≤
          ⌈((mkMatrixColumn x ch rnd0).run rm ticks).maxLength⌉) := by
  refine ⟨?_, ?_, ?_⟩
  · intro mobile cw ch rnd0 ticks
    apply run_preserves_trail_inv
    constructor
    · exact Nat.zero_le _
    · cases mobile <;> simp [mkParticle3D, Particle3D.reset]
  · intro trail m sample hlen hm
    unfold Particle3D.trailStep
    rw [if_pos (le_of_eq hlen.symm)]
    refine ⟨rfl, ?_⟩
    rw [List.length_append, List.length_tail, List.length_singleton]
    omega
  · intro x ch rnd0 rm ticks h0 hticks
    apply run_preserves_chars_inv
    · have : ((0 : ℕ) : ℤ) ≤ ⌈rnd0.resetMaxLength⌉ := by
        simpa using Int.ceil_nonneg (by linarith : (0:ℚ) ≤ rnd0.resetMaxLength)
      simpa [mkMatrixColumn, MatrixColumn.reset] using this
    · intro tk htk
      linarith [hticks tk htk]

/-- Concrete instantiation of `C2_buffer_bounds`: the ring-buffer step
on a full 2-element trail, and the ceiling bound on the very column run
of the counterexample (8 ≤ ⌈7.5⌉ = 8). -/
theorem C2_buffer_bounds_witness :
    Particle3D.trailStep [(1, 1, 1), (2, 2, 2)] 2 (3, 3, 3) =
        [(2, 2, 2), (3, 3, 3)] ∧
      (((mkMatrixColumn 0 10000 c2rand).run false c2ticks).characters.length : ℤ) ≤
        ⌈((mkMatrixColumn 0 10000 c2rand).run false c2ticks).maxLength⌉ := by
  constructor
  · have h := (C2_buffer_bounds).2.1 [(1, 1, 1), (2, 2, 2)] 2 (3, 3, 3)
      (by norm_num) (by norm_num)
    rw [h.1]
    rfl
  · exact (C2_buffer_bounds).2.2 0 10000 c2rand false c2ticks
      (by norm_num [c2rand]) (by with_unfolding_all decide)

/-! ## Claim C3 -/

theorem quality_step_bounds (s : FPSController) (avg : ℚ)
    (h : (0.3 : ℚ) ≤ s.qualityLevel ∧ s.qualityLevel ≤ 1) :
    (0.3 : ℚ) ≤ (s.updateQuality avg).qualityLevel ∧
      (s.updateQuality avg).qualityLevel ≤ 1 := by
  obtain ⟨h1, h2⟩ := h
  unfold FPSController.updateQuality FPSController.adaptPerformance
  dsimp only
  split_ifs with hmod hlow hhigh
  · constructor
    · exact le_max_left _ _
    · apply max_le (by norm_num)
      nlinarith
  · constructor
    · refine le_min (by norm_num) ?_
      nlinarith
    · exact min_le_left _ _
  · exact ⟨h1, h2⟩
  · exact ⟨h1, h2⟩

/-- Claim C3: starting from `qualityLevel = 1.0` (the constructor
value), after any finite sequence of `updateQuality()` calls, for
arbitrary average-FPS histories, arbitrary initial frame counts and
arbitrary target FPS and entity counts, `qualityLevel` stays within
`[0.3, 1.0]`. -/
theorem C3_qualityLevel_bounds (targetFPS : ℚ) (hc ic mc : ℤ) (fc : ℕ)
    (t0 : ℚ) (avgs : List ℚ) :
    (0.3 : ℚ) ≤ (runUpdateQuality
        { mkFPSController targetFPS hc ic mc with
            frameCount := fc, lastFrameTime := t0 } avgs).qualityLevel ∧
      (runUpdateQuality
        { mkFPSController targetFPS hc ic mc with
            frameCount := fc, lastFrameTime := t0 } avgs).qualityLevel ≤ 1 := by
  have key : ∀ (l : List ℚ) (s : FPSController),
      (0.3 : ℚ) ≤ s.qualityLevel → s.qualityLevel ≤ 1 →
      (0.3 : ℚ) ≤ (l.foldl FPSController.updateQuality s).qualityLevel ∧
        (l.foldl FPSController.updateQuality s).qualityLevel ≤ 1 := by
    intro l
    induction l with
    | nil => exact fun s h1 h2 => ⟨h1, h2⟩
    | cons a l ih =>
      intro s h1 h2
      rw [List.foldl_cons]
      obtain ⟨k1, k2⟩ := quality_step_bounds s a ⟨h1, h2⟩
      exact ih _ k1 k2
  unfold runUpdateQuality
  apply key
  · simp [mkFPSController]
    norm_num
  · simp [mkFPSController]

/-! ## Claim C5 -/

theorem shouldRender_true_iff (s : FPSController) (t : ℚ) :
    (s.shouldRender t).1 = true ↔ s.frameInterval ≤ t - s.lastFrameTime := by
  unfold FPSController.shouldRender
  split_ifs with h <;> simp [h]

theorem shouldRender_frameInterval (s : FPSController) (t : ℚ) :
    (s.shouldRender t).2.frameInterval = s.frameInterval := by
  unfold FPSController.shouldRender
  split_ifs <;> rfl

theorem shouldRender_true_lastFrameTime (s : FPSController) (t : ℚ)
    (h : (s.shouldRender t).1 = true) :
    (s.shouldRender t).2.lastFrameTime = t := by
  unfold FPSController.shouldRender at h ⊢
  split_ifs at h ⊢ with hc
  · rfl

theorem shouldRender_false_state (s : FPSController) (t : ℚ)
    (h : (s.shouldRender t).1 = false) : (s.shouldRender t).2 = s := by
  unfold FPSController.shouldRender at h ⊢
  split_ifs at h ⊢ with hc
  · rfl

theorem acceptedTimes_spaced (ts : List ℚ) (s : FPSController) :
    (∀ a, (acceptedTimes s ts).head? = some a →
        s.frameInterval ≤ a - s.lastFrameTime) ∧
      List.Chain' (fun a b => s.frameInterval ≤ b - a) (acceptedTimes s ts) := by
  induction ts generalizing s with
  | nil => exact ⟨fun a h => (nomatch h), List.chain'_nil⟩
  | cons t ts ih =>
    rw [acceptedTimes]
    split_ifs with hok
    · have hlast := shouldRender_true_lastFrameTime s t hok
      have hint := shouldRender_frameInterval s t
      obtain ⟨ihhead, ihchain⟩ := ih (s.shouldRender t).2
      constructor
      · intro a ha
        rw [List.head?_cons, Option.some_inj] at ha
        subst ha
        exact (shouldRender_true_iff s t).mp hok
      · apply List.chain'_cons'.mpr
        constructor
        · intro b hb
          have hhead := ihhead b hb
          rw [hlast, hint] at hhead
          exact hhead
        · rw [← hint]
          exact ihchain
    · have heq := shouldRender_false_state s t (Bool.not_eq_true _ |>.mp hok)
      rw [heq]
      exact ih s

/-- Claim C5 fails as stated: there is a single shared `FPSController`
(one `lastFrameTime`) used by all three scenes, so one scene's accepted
frame consumes the others' render slot.  Here the first call (the hero
loop) accepts at t = 100; the second call (the matrix loop, which has
never had a frame accepted, elapsed 105 ≥ 1000/60) is refused. -/
theorem C5_counterexample :
    ((mkFPSController 60 12 15 20).shouldRender 100).1 = true
    ∧ (((mkFPSController 60 12 15 20).shouldRender 100).2.shouldRender 105).1 = false
    ∧ (mkFPSController 60 12 15 20).frameInterval ≤
        105 - (mkFPSController 60 12 15 20).lastFrameTime := by
  with_unfolding_all decide

/-- Claim C5, amended: the single shared `FPSController.shouldRender`
returns true — updating the stored timestamp — iff the elapsed time
since the last accepted render (of any scene) is at least
`frameInterval = 1000/targetFPS`; a rejected poll leaves the state
unchanged; and in any polling sequence, consecutive accepted times are
at least `frameInterval` apart (at most one acceptance per interval
window).  The three scenes do not gate independently: they share this
one controller state. -/
theorem C5_shouldRender_gating (s : FPSController) (t : ℚ)
    (times : List ℚ) (targetFPS : ℚ) (hc ic mc : ℤ) :
    ((s.shouldRender t).1 = true ↔ s.frameInterval ≤ t - s.lastFrameTime)
    ∧ ((s.shouldRender t).1 = true → (s.shouldRender t).2.lastFrameTime = t)
    ∧ ((s.shouldRender t).1 = false → (s.shouldRender t).2 = s)
    ∧ (mkFPSController targetFPS hc ic mc).frameInterval = 1000 / targetFPS
    ∧ List.Chain' (fun a b => s.frameInterval ≤ b - a) (acceptedTimes s times) :=
  ⟨shouldRender_true_iff s t,
   shouldRender_true_lastFrameTime s t,
   shouldRender_false_state s t,
   rfl,
   (acceptedTimes_spaced times s).2⟩

/-- Concrete instantiation of `C5_shouldRender_gating`: at
`targetFPS = 60` the first poll at t = 100 is accepted. -/
theorem C5_shouldRender_gating_witness :
    ((mkFPSController 60 12 15 20).shouldRender 100).1 = true :=
  (C5_shouldRender_gating (mkFPSController 60 12 15 20) 100 [] 60 12 15 20).1.mpr
    (by norm_num [mkFPSController])

/-! ## Claim C6 -/

theorem updateQuality_no_check (s : FPSController) (avg : ℚ)
    (h : ¬ (s.frameCount + 1) % 60 = 0) :
    s.updateQuality avg = { s with frameCount := s.frameCount + 1 } := by
  unfold FPSController.updateQuality
  dsimp only
  rw [if_neg h]

theorem updateQuality_degrade (s : FPSController) (avg : ℚ)
    (hmod : (s.frameCount + 1) % 60 = 0) (hlow : avg < s.targetFPS * 0.8) :
    (s.updateQuality avg).qualityLevel = max 0.3 (s.qualityLevel * 0.9) ∧
    (s.updateQuality avg).heroParticleCount =
      max 5 ⌊(s.heroParticleCount : ℚ) * max 0.3 (s.qualityLevel * 0.9)⌋ ∧
    (s.updateQuality avg).introParticleCount =
      max 8 ⌊(s.introParticleCount : ℚ) * max 0.3 (s.qualityLevel * 0.9)⌋ ∧
    (s.updateQuality avg).matrixColumns =
      max 10 ⌊(s.matrixColumns : ℚ) * max 0.3 (s.qualityLevel * 0.9)⌋ := by
  unfold FPSController.updateQuality FPSController.adaptPerformance
  dsimp only
  rw [if_pos hmod, if_pos hlow]
  exact ⟨rfl, rfl, rfl, rfl⟩

theorem updateQuality_no_degrade (s : FPSController) (avg : ℚ)
    (hmod : (s.frameCount + 1) % 60 = 0) (hnl : ¬ avg < s.targetFPS * 0.8) :
    (s.updateQuality avg).heroParticleCount = s.heroParticleCount ∧
    (s.updateQuality avg).introParticleCount = s.introParticleCount ∧
    (s.updateQuality avg).matrixColumns = s.matrixColumns ∧
    ((s.targetFPS * 0.95 < avg ∧ s.qualityLevel < 1) →
      (s.updateQuality avg).qualityLevel = min 1 (s.qualityLevel * 1.1)) ∧
    (¬ (s.targetFPS * 0.95 < avg ∧ s.qualityLevel < 1) →
      (s.updateQuality avg).qualityLevel = s.qualityLevel) := by
  unfold FPSController.updateQuality
  dsimp only
  rw [if_pos hmod, if_neg hnl]
  by_cases hq : s.targetFPS * 0.95 < avg ∧ s.qualityLevel < 1
  · rw [if_pos hq]
    exact ⟨rfl, rfl, rfl, fun _ => rfl, fun hn => absurd hq hn⟩
  · rw [if_neg hq]
    exact ⟨rfl, rfl, rfl, fun hp => absurd hp hq, fun _ => rfl⟩

/-- Claim C6 fails as stated: `shouldRender` and `updateQuality` both
increment the one shared `frameCount`, so in a hero-only loop the
counter grows by 2 per accepted frame and the `% 60` check fires every
30 accepted frames, not every 60.  With a constant reported average FPS
of 20 against `targetFPS = 60`, after 60 accepted frames (shared
counter 120) the quality has been degraded twice:
`qualityLevel = 0.81`, not the claimed `0.9`. -/
theorem C6_counterexample :
    c6Run.frameCount = 120 ∧ c6Run.qualityLevel = 81 / 100 ∧
      ¬ c6Run.qualityLevel = 9 / 10 := by
  with_unfolding_all decide

/-- Claim C6, amended: the quality check fires whenever the shared
frame counter — incremented once per accepted frame by `shouldRender`
and once more per `updateQuality` call — reaches a multiple of 60
(every 30 accepted frames in a hero-only loop, so the scenario of 60
accepted frames at average FPS 20 versus target 60 ends at
`qualityLevel = 1.0 × 0.9 × 0.9 = 0.81`, with entity counts shrunk to
8 / 10 / 14, above the family minimums 5 / 8 / 10); on a firing check
with average FPS below 80% of target, `qualityLevel` is multiplied by
0.9 (floored at 0.3) and the three entity counts are shrunk by the new
quality factor but never below their minimums; on a firing check with
average FPS not below 80% of target, no entity count changes, and
`qualityLevel` is multiplied by 1.1 (capped at 1.0) exactly when
average FPS exceeds 95% of target and quality is below 1.0; a
non-firing call only increments the counter. -/
theorem C6_quality_reevaluation :
    (c6Run.qualityLevel = 81 / 100 ∧ c6Run.frameCount = 120 ∧
      c6Run.heroParticleCount = 8 ∧ c6Run.introParticleCount = 10 ∧
      c6Run.matrixColumns = 14)
    ∧ (∀ (s : FPSController) (avg : ℚ), ¬ (s.frameCount + 1) % 60 = 0 →
        s.updateQuality avg = { s with frameCount := s.frameCount + 1 })
    ∧ (∀ (s : FPSController) (avg : ℚ), (s.frameCount + 1) % 60 = 0 →
        avg < s.targetFPS * 0.8 →
        (s.updateQuality avg).qualityLevel = max 0.3 (s.qualityLevel * 0.9) ∧
        (s.updateQuality avg).heroParticleCount =
          max 5 ⌊(s.heroParticleCount : ℚ) * max 0.3 (s.qualityLevel * 0.9)⌋ ∧
        (s.updateQuality avg).introParticleCount =
          max 8 ⌊(s.introParticleCount : ℚ) * max 0.3 (s.qualityLevel * 0.9)⌋ ∧
        (s.updateQuality avg).matrixColumns =
          max 10 ⌊(s.matrixColumns : ℚ) * max 0.3 (s.qualityLevel * 0.9)⌋)
    ∧ (∀ (s : FPSController) (avg : ℚ), (s.frameCount + 1) % 60 = 0 →
        ¬ avg < s.targetFPS * 0.8 →
        (s.updateQuality avg).heroParticleCount = s.heroParticleCount ∧
        (s.updateQuality avg).introParticleCount = s.introParticleCount ∧
        (s.updateQuality avg).matrixColumns = s.matrixColumns ∧
        ((s.targetFPS * 0.95 < avg ∧ s.qualityLevel < 1) →
          (s.updateQuality avg).qualityLevel = min 1 (s.qualityLevel * 1.1)) ∧
        (¬ (s.targetFPS * 0.95 < avg ∧ s.qualityLevel < 1) →
          (s.updateQuality avg).qualityLevel = s.qualityLevel)) := by
  refine ⟨?_, ?_, ?_, ?_⟩
  · with_unfolding_all decide
  · exact updateQuality_no_check
  · exact updateQuality_degrade
  · exact updateQuality_no_degrade

/-- Concrete instantiation of `C6_quality_reevaluation`: a controller
whose counter is at 59 (so the next `updateQuality` call fires the
check) degrades quality from 1.0 to 0.9 on average FPS 20 against
target 60. -/
theorem C6_quality_reevaluation_witness :
    ({ mkFPSController 60 12 15 20 with
        frameCount := 59 }.updateQuality 20).qualityLevel = 9 / 10 := by
  have h := C6_quality_reevaluation.2.2.1
    { mkFPSController 60 12 15 20 with frameCount := 59 } 20
    (by norm_num [mkFPSController]) (by norm_num [mkFPSController])
  rw [h.1]
  norm_num [mkFPSController]

/-! ## Claim C4 -/

theorem connLoop_length_le (p1 : HP) (maxC : ℕ) (cdSq : ℚ)
    (cands : List HP) (count : ℕ) :
    (connLoop p1 maxC cdSq cands count).length ≤ maxC - count := by
  induction cands generalizing count with
  | nil =>
    rw [connLoop]
    simp
  | cons p2 rest ih =>
    rw [connLoop]
    split_ifs with hcount heq hdist
    · exact le_trans (ih count) (le_refl _)
    · rw [List.length_cons]
      have := ih (count + 1)
      omega
    · exact le_trans (ih count) (le_refl _)
    · simp

/-- Claim C4 fails as stated: in the hero scenario (two particles 50
units apart, `connectionDistance = 120`, `maxConnections = 5`) the
`SpatialGrid` path of `drawConnections` draws a line in each direction
— two lines between the pair, because `getNearby` returns both
particles for both query points and only the linear fallback restricts
candidates to `slice(i + 1)`.  The fallback path draws exactly one. -/
theorem C4_counterexample :
    drawConnections [c4p1, c4p2] (some c4grid) 5 120 false false =
        [(c4p1, c4p2), (c4p2, c4p1)] ∧
      ¬ (drawConnections [c4p1, c4p2] (some c4grid) 5 120 false false).length
          = 1 := by
  with_unfolding_all decide

/-- Claim C4, amended: in the two-particle scenario the linear fallback
draws exactly one line between the pair, while the `SpatialGrid` path
draws one line in each direction (two draw calls); in general the inner
loop draws at most `maxConnections` lines per entity,
first-found-first-drawn without distance sorting. -/
theorem C4_connection_render :
    drawConnections [c4p1, c4p2] none 5 120 false false = [(c4p1, c4p2)]
    ∧ drawConnections [c4p1, c4p2] (some c4grid) 5 120 false false =
        [(c4p1, c4p2), (c4p2, c4p1)]
    ∧ (∀ (p1 : HP) (maxC : ℕ) (cd : ℚ) (cands : List HP),
        (connLoop p1 maxC (cd * cd) cands 0).length ≤ maxC) := by
  refine ⟨by with_unfolding_all decide, by with_unfolding_all decide, ?_⟩
  intro p1 maxC cd cands
  simpa using connLoop_length_le p1 maxC (cd * cd) cands 0

/-! ## Claim C7 -/

@[simp] theorem clear_cols {α : Type} (g : SpatialGrid α) :
    g.clear.cols = g.cols := rfl

@[simp] theorem clear_rows {α : Type} (g : SpatialGrid α) :
    g.clear.rows = g.rows := rfl

@[simp] theorem clear_cellSize {α : Type} (g : SpatialGrid α) :
    g.clear.cellSize = g.cellSize := rfl

theorem buildGrid_eq_insertAll (g : SpatialGrid HP) (ps : List HP) :
    buildGrid g ps = g.clear.insertAll (ps.map fun e => (e, e.x, e.y)) := by
  unfold buildGrid SpatialGrid.insertAll
  rw [List.foldl_map]

theorem distanceSquared_comm (x1 y1 x2 y2 : ℚ) :
    distanceSquared x1 y1 x2 y2 = distanceSquared x2 y2 x1 y1 := by
  unfold distanceSquared
  ring

/-- Claim C7 fails as stated: when a `SpatialGrid` is present,
`findConnections` returns the raw `getNearby` over-approximation — it
contains the querying particle itself and candidates beyond the search
radius, with no exact-distance filtering — while the linear fallback
exact-filters.  With two particles 150 apart (radius 120, cell 100),
the grid path returns both particles and the fallback returns none. -/
theorem C7_counterexample :
    HeroParticle.findConnections c7p [c7p, c7q] (some c7grid) true false false
        120 = [c7p, c7q]
    ∧ HeroParticle.findConnections c7p [c7p, c7q] none true false false 120 = []
    ∧ ¬ HeroParticle.findConnections c7p [c7p, c7q] (some c7grid) true false
          false 120 =
        HeroParticle.findConnections c7p [c7p, c7q] none true false false 120 := by
  with_unfolding_all decide

/-- Claim C7, amended: the linear fallback of `findConnections` returns
exactly the spec's logical result set (other particles strictly within
the connection radius); on mobile or reduced motion both paths return
the empty list; the grid path returns the unfiltered `getNearby` result
— an over-approximation only, not exact-filtered — and that result is a
superset of the spec set whenever the grid's cell size is positive, the
radius non-negative, and every particle lies in the indexed bounds. -/
theorem C7_findConnections_paths (p : HP) (particles : List HP) (cd : ℚ)
    (g : SpatialGrid HP) (hcs : 0 < g.cellSize) (hcd : 0 ≤ cd)
    (hin : ∀ e ∈ particles, g.inBounds e.x e.y) :
    HeroParticle.findConnections p particles none true false false cd =
        findConnectionsSpec p particles cd
    ∧ (∀ (og : Option (SpatialGrid HP)) (so : Bool),
        HeroParticle.findConnections p particles og so true false cd = [] ∧
          HeroParticle.findConnections p particles og so false true cd = [])
    ∧ HeroParticle.findConnections p particles (some (buildGrid g particles))
          true false false cd =
        (buildGrid g particles).getNearby p.x p.y cd
    ∧ (∀ q ∈ findConnectionsSpec p particles cd,
        q ∈ HeroParticle.findConnections p particles
          (some (buildGrid g particles)) true false false cd) := by
  refine ⟨rfl, fun og so => ⟨rfl, by unfold HeroParticle.findConnections; simp⟩,
    rfl, ?_⟩
  intro q hq
  unfold findConnectionsSpec at hq
  rw [List.mem_filter] at hq
  obtain ⟨hqmem, hcond⟩ := hq
  rw [decide_eq_true_eq] at hcond
  obtain ⟨hqe, hdist⟩ := hcond
  show q ∈ (buildGrid g particles).getNearby p.x p.y cd
  rw [buildGrid_eq_insertAll]
  apply getNearby_superset g.clear p.x p.y cd hcs hcd
    (particles.map fun e => (e, e.x, e.y)) q q.x q.y
  · exact List.mem_map_of_mem _ hqmem
  · exact hin q hqmem
  · rw [distanceSquared_comm]
    exact le_of_lt hdist

/-- Concrete instantiation of `C7_findConnections_paths`: in the
two-particle scenario of claim C4 (50 units apart, radius 120), the
in-radius partner is in the spec set and hence also in the grid path's
over-approximate result. -/
theorem C7_findConnections_paths_witness :
    c4p2 ∈ HeroParticle.findConnections c4p1 [c4p1, c4p2]
      (some (buildGrid (mkSpatialGrid HP 800 600 100) [c4p1, c4p2]))
      true false false 120 :=
  (C7_findConnections_paths c4p1 [c4p1, c4p2] 120
      (mkSpatialGrid HP 800 600 100) (by norm_num [mkSpatialGrid])
      (by norm_num) (by with_unfolding_all decide)).2.2.2 c4p2
    (by with_unfolding_all decide)

/-! ## Claim C8 -/

theorem updateEntities_clean (es : List SimEntity)
    (h : ∀ e ∈ es, e.throws = false) :
    updateEntities es =
      (es.map fun e => { e with updateCount := e.updateCount + 1 }, false) := by
  induction es with
  | nil => rfl
  | cons e rest ih =>
    have he : e.throws = false := h e (List.mem_cons_self _ _)
    rw [updateEntities, he, ih fun x hx => h x (List.mem_cons_of_mem _ hx)]
    simp [he]

/-- Claim C8 fails as stated: the try/catch wraps the whole per-frame
entity batch, so an exception in one entity's update aborts the
update/draw of every later entity of the same scene in that frame.
Here entity 0 throws and entity 1 — which does not throw — is left
un-updated (`updateCount` still 0) when the frame ends. -/
theorem C8_counterexample :
    (sceneAnimateFrame
        { isActive := true
          entities := [{ id := 0, updateCount := 0, throws := true },
            { id := 1, updateCount := 0, throws := false }] }).entities =
      [{ id := 0, updateCount := 0, throws := true },
        { id := 1, updateCount := 0, throws := false }]
    ∧ (sceneAnimateFrame
        { isActive := true
          entities := [{ id := 0, updateCount := 0, throws := true },
            { id := 1, updateCount := 0, throws := false }] }).isActive
        = false := by
  decide

/-- Claim C8, amended: an exception inside one entity's update aborts
the rest of that scene's batch for the frame (a throwing entity stops
the `forEach`; a throw-free batch updates every entity); the exception
is caught at the scene boundary, which marks only that scene inactive,
and the other scene's `animate` loop is unaffected: a throw-free,
active matrix scene still runs its full frame and stays active in the
same scheduler round in which the hero scene throws. -/
theorem C8_frame_isolation :
    (∀ (e : SimEntity) (rest : List SimEntity), e.throws = true →
        updateEntities (e :: rest) = (e :: rest, true))
    ∧ (∀ es : List SimEntity, (∀ e ∈ es, e.throws = false) →
        updateEntities es =
          (es.map fun e => { e with updateCount := e.updateCount + 1 }, false))
    ∧ (∀ s : SceneState, s.isActive = true → (updateEntities s.entities).2 = true →
        sceneAnimateFrame s =
          { isActive := false, entities := (updateEntities s.entities).1 })
    ∧ (∀ sys : TwoScenes, sys.matrix.isActive = true →
        (∀ e ∈ sys.matrix.entities, e.throws = false) →
        (twoScenesFrame sys).matrix.isActive = true ∧
          (twoScenesFrame sys).matrix.entities =
            sys.matrix.entities.map
              fun e => { e with updateCount := e.updateCount + 1 }) := by
  refine ⟨?_, updateEntities_clean, ?_, ?_⟩
  · intro e rest h
    rw [updateEntities, h]
    simp
  · intro s hact herr
    unfold sceneAnimateFrame
    rw [hact]
    simp only [Bool.not_true, ite_false, ite_true, Bool.false_eq_true]
    rw [if_pos herr]
  · intro sys hact hclean
    unfold twoScenesFrame sceneAnimateFrame
    dsimp only
    rw [hact, updateEntities_clean sys.matrix.entities hclean]
    simp

/-- Concrete instantiation of `C8_frame_isolation`: a one-entity
throwing batch is returned untouched with the error flag set, and a
matrix scene with one clean entity survives the round in which the
hero scene throws. -/
theorem C8_frame_isolation_witness :
    updateEntities [{ id := 0, updateCount := 0, throws := true }] =
      ([{ id := 0, updateCount := 0, throws := true }], true)
    ∧ (twoScenesFrame
        { hero := { isActive := true
                    entities := [{ id := 0, updateCount := 0, throws := true }] }
          matrix := { isActive := true
                      entities := [{ id := 1, updateCount := 3, throws := false }] } }).matrix.isActive
        = true := by
  constructor
  · exact C8_frame_isolation.1 _ [] rfl
  · exact (C8_frame_isolation.2.2.2 _ rfl (by decide)).1

/-! ## Claim C9 -/

theorem pauseLoop_idem (s : LoopState) :
    pauseLoop (pauseLoop s) = pauseLoop s := by
  cases s with
  | mk isActive handle pending hasCanvas =>
    cases handle <;> simp [pauseLoop]

/-- Claim C9 fails as stated: `resumeAnimations` on an already-active
scene is not a no-op — it sets the flags again and calls `animate()`
directly, which (the scene being active) schedules one more animation
callback, so a second concurrent loop chain now exists
(`pending` goes from 1 to 2). -/
theorem C9_counterexample :
    ¬ resumeAnimations
        { introCompleted := true
          hero := { isActive := true, handle := some 0, pending := 1,
                    hasCanvas := true }
          matrix := { isActive := true, handle := some 0, pending := 1,
                      hasCanvas := true }
          intro := { isActive := false, handle := none, pending := 0,
                     hasCanvas := true } } =
      { introCompleted := true
        hero := { isActive := true, handle := some 0, pending := 1,
                  hasCanvas := true }
        matrix := { isActive := true, handle := some 0, pending := 1,
                    hasCanvas := true }
        intro := { isActive := false, handle := none, pending := 0,
                   hasCanvas := true } }
    ∧ (resumeAnimations
        { introCompleted := true
          hero := { isActive := true, handle := some 0, pending := 1,
                    hasCanvas := true }
          matrix := { isActive := true, handle := some 0, pending := 1,
                      hasCanvas := true }
          intro := { isActive := false, handle := none, pending := 0,
                     hasCanvas := true } }).hero.pending = 2 := by
  decide

/-- Claim C9, amended: `pauseAnimations` is idempotent — the second
call finds every `isActive` flag already false and every frame handle
already null, cancels nothing, and leaves the state exactly as after
the first call; but `resumeAnimations` on an already-active scene is
not a no-op: it invokes `animate()` again, scheduling one additional
concurrent animation callback for that scene. -/
theorem C9_pause_resume (a : AnimSystem) (s : LoopState) :
    pauseAnimations (pauseAnimations a) = pauseAnimations a
    ∧ pauseLoop (pauseLoop s) = pauseLoop s
    ∧ (s.isActive = true → s.hasCanvas = true →
        (resumeLoop s).pending = s.pending + 1 ∧
          (resumeLoop s).isActive = true) := by
  refine ⟨?_, pauseLoop_idem s, ?_⟩
  · cases a with
    | mk ic hero matrix intro =>
      simp [pauseAnimations, pauseLoop_idem]
  · intro hact hcanvas
    unfold resumeLoop animateCall
    rw [hcanvas]
    simp [hact]

/-- Concrete instantiation of `C9_pause_resume`: resuming a scene that
is already active with one live loop leaves it with two. -/
theorem C9_pause_resume_witness :
    (resumeLoop ⟨true, some 0, 1, true⟩).pending = 1 + 1
    ∧ (resumeLoop ⟨true, some 0, 1, true⟩).isActive = true :=
  (C9_pause_resume
    ⟨true, ⟨true, some 0, 1, true⟩, ⟨true, some 0, 1, true⟩,
      ⟨false, none, 0, true⟩⟩
    ⟨true, some 0, 1, true⟩).2.2 rfl rfl

/-! ## Claim C10 -/

/-- Claim C10: after `MemoryManager.forceCleanup()` returns, every
`Particle3D` trail and every `MatrixColumn` glyph buffer is empty —
whatever the prior contents and whatever the throttle state of the
`cleanup()` it first invokes — unlike the periodic `cleanup()`, which
merely trims to the configured caps. -/
theorem C10_forceCleanup_empties (m : MMState) (now : ℚ) :
    ((mmForceCleanup m now).particles3D.all fun p => p.trail.isEmpty) = true
    ∧ ((mmForceCleanup m now).matrixColumns.all
        fun c => c.characters.isEmpty) = true := by
  unfold mmForceCleanup
  constructor
  · dsimp only
    rw [List.all_eq_true]
    intro x hx
    rw [List.mem_map] at hx
    obtain ⟨p, _, rfl⟩ := hx
    rfl
  · dsimp only
    rw [List.all_eq_true]
    intro x hx
    rw [List.mem_map] at hx
    obtain ⟨c, _, rfl⟩ := hx
    rfl
